import Mathlib

/-!
The file pkg/build/netbsd.go.

A shallow embedding of the NetBSD kernel builder of syzkaller
(`netbsd.build`, `netbsd.clean`, `CopyKernelToDisk`) and the properties of its
call sequences.

The Go code talks to collaborators that live outside this file of the
repository (`osutil.WriteFile`, `osutil.RunCmd`, `osutil.CopyFile`,
`extractRootCause`, the `vm` package) and to the Go standard library
(`filepath.Join`, `runtime.NumCPU`, `fmt` rendering).  They are parameters of
the embedding (`Env`): every collaborator is an arbitrary function of an
arbitrary collaborator state, so a theorem over all `Env` holds for every
behaviour of the collaborators.  Every collaborator call is recorded in a
trace, which is how "was called", "was never called" and "in this order" are
stated.
-/

set_option linter.unusedVariables false

namespace NetBSD

/-! ## Data model -/

/-- Types of the values owned by the collaborators: their state (filesystem,
running VMs, ...), their error values, VM pools, VM instances, and the two
channel values returned by `Instance.Run`. -/
structure Sig where
  State : Type
  Error : Type
  Pool : Type
  Inst : Type
  OutC : Type
  ErrC : Type

/-- Go `error` values that `build` and `CopyKernelToDisk` return: an error
handed over by a collaborator, or one made here with `fmt.Errorf`. -/
inductive GoError (ε : Type) where
  | raw (e : ε)
  | errorf (msg : String)

/-- The fields of `mgrconfig.Config` that `CopyKernelToDisk` fills in
(`Type` is spelled `Type_`, `VM` holds the raw JSON bytes). -/
structure Config where
  Workdir : String
  Image : String
  SSHKey : String
  SSHUser : String
  TargetOS : String
  TargetVMArch : String
  Type_ : String
  VM : String
deriving DecidableEq

/-- One observed collaborator call, with the arguments it was given. -/
inductive Call (S : Sig) where
  | writeFile (path : String) (data : String)
  | runCmd (timeout : Nat) (dir : String) (bin : String) (args : List String)
  | copyFile (src : String) (dst : String)
  | vmCreate (cfg : Config) (debug : Bool)
  | poolCreate (pool : S.Pool) (index : Nat)
  | instCopy (inst : S.Inst) (hostSrc : String)
  | instRun (inst : S.Inst) (timeout : Nat) (command : String)
  | instClose (inst : S.Inst)

/-- The collaborators.  Each effectful one maps the collaborator state to a
result and a new state; the results have the shape of the Go return values
(`Copy` and `Run` return their values also when they return an error, and the
code reads them). -/
structure Env (S : Sig) where
  /-- Two-argument `filepath.Join`. -/
  join : String → String → String
  /-- Result of `runtime.NumCPU()`. -/
  numCPU : Nat
  /-- The `%v` rendering of a collaborator error (its `Error()` text). -/
  errorString : S.Error → String
  /-- The `%v` rendering of the first value returned by `Instance.Run`. -/
  fmtOutC : S.OutC → String
  /-- The `%v` rendering of the second value returned by `Instance.Run`. -/
  fmtErrC : S.ErrC → String
  /-- The `extractRootCause` function of package build. -/
  extractRootCause : GoError S.Error → GoError S.Error
  writeFile : String → String → S.State → Option S.Error × S.State
  runCmd : Nat → String → String → List String → S.State →
    (String × Option S.Error) × S.State
  copyFile : String → String → S.State → Option S.Error × S.State
  vmCreate : Config → Bool → S.State → Except S.Error S.Pool × S.State
  poolCreate : S.Pool → Nat → S.State → Except S.Error S.Inst × S.State
  instCopy : S.Inst → String → S.State → (String × Option S.Error) × S.State
  instRun : S.Inst → Nat → String → S.State →
    (S.OutC × S.ErrC × Option S.Error) × S.State
  instClose : S.Inst → S.State → S.State

/-- Collaborator state together with the calls observed so far. -/
structure World (S : Sig) where
  st : S.State
  trace : List (Call S)

/-- Message of a returned error (`err.Error()`). -/
def GoError.Error {S : Sig} (env : Env S) : GoError S.Error → String
  | .raw e => env.errorString e
  | .errorf msg => msg

/-- The constant `time.Minute`, in nanoseconds. -/
def Minute : Nat := 60 * 1000000000

/-! ## Recorded collaborator calls -/

/-- Call of `osutil.WriteFile(path, data)`. -/
def osutilWriteFile {S : Sig} (env : Env S) (path data : String) (w : World S) :
    Option S.Error × World S :=
  let r := env.writeFile path data w.st
  (r.1, ⟨r.2, w.trace ++ [Call.writeFile path data]⟩)

/-- Call of `osutil.RunCmd(timeout, dir, bin, args...)`. -/
def osutilRunCmd {S : Sig} (env : Env S) (timeout : Nat) (dir bin : String)
    (args : List String) (w : World S) : (String × Option S.Error) × World S :=
  let r := env.runCmd timeout dir bin args w.st
  (r.1, ⟨r.2, w.trace ++ [Call.runCmd timeout dir bin args]⟩)

/-- Call of `osutil.CopyFile(src, dst)`. -/
def osutilCopyFile {S : Sig} (env : Env S) (src dst : String) (w : World S) :
    Option S.Error × World S :=
  let r := env.copyFile src dst w.st
  (r.1, ⟨r.2, w.trace ++ [Call.copyFile src dst]⟩)

/-- Call of `vm.Create(cfg, debug)`. -/
def vmCreate {S : Sig} (env : Env S) (cfg : Config) (debug : Bool) (w : World S) :
    Except S.Error S.Pool × World S :=
  let r := env.vmCreate cfg debug w.st
  (r.1, ⟨r.2, w.trace ++ [Call.vmCreate cfg debug]⟩)

/-- Call of `pool.Create(index)`. -/
def poolCreate {S : Sig} (env : Env S) (pool : S.Pool) (index : Nat) (w : World S) :
    Except S.Error S.Inst × World S :=
  let r := env.poolCreate pool index w.st
  (r.1, ⟨r.2, w.trace ++ [Call.poolCreate pool index]⟩)

/-- Call of `inst.Copy(hostSrc)`. -/
def instCopy {S : Sig} (env : Env S) (inst : S.Inst) (hostSrc : String) (w : World S) :
    (String × Option S.Error) × World S :=
  let r := env.instCopy inst hostSrc w.st
  (r.1, ⟨r.2, w.trace ++ [Call.instCopy inst hostSrc]⟩)

/-- Call of `inst.Run(timeout, nil, command)`; the stop channel is always nil
in this file and is left out. -/
def instRun {S : Sig} (env : Env S) (inst : S.Inst) (timeout : Nat) (command : String)
    (w : World S) : (S.OutC × S.ErrC × Option S.Error) × World S :=
  let r := env.instRun inst timeout command w.st
  (r.1, ⟨r.2, w.trace ++ [Call.instRun inst timeout command]⟩)

/-- Call of `inst.Close()`. -/
def instClose {S : Sig} (env : Env S) (inst : S.Inst) (w : World S) : World S :=
  ⟨env.instClose inst w.st, w.trace ++ [Call.instClose inst]⟩

/-! ## The program -/

/-- The constant `kernelName` of `build`. -/
def kernelName : String := "GENERIC_SYZKALLER"

/-- The bytes of the `conf` literal of `build` (lines 28-34). -/
def conf : String :=
  "\ninclude \"arch/amd64/conf/GENERIC\"\n\nmakeoptions    KASAN=1\noptions    KASAN\nno options SVS\n"

/-- The bytes of the `temp` literal of `CopyKernelToDisk` (lines 79-85). -/
def temp : String :=
  "\n\x7b\n\t\"qemu\": \"qemu-system-x86_64\",\n\t\"cpu\": 1,\n\t\"count\": 1,\n\t\"mem\": 1024\n\x7d\t"

/-- The `cfg` value built by `CopyKernelToDisk` (lines 88-97). -/
def vmConfig {S : Sig} (env : Env S) (outputDir : String) : Config where
  Workdir := outputDir
  Image := env.join outputDir "image"
  SSHKey := env.join outputDir "key"
  SSHUser := "root"
  TargetOS := "netbsd"
  TargetVMArch := "amd64"
  Type_ := "qemu"
  VM := temp

/-- `CopyKernelToDisk(outputDir)`.  The deferred `inst.Close()` runs after the
rest of the body, whatever that returned. -/
def CopyKernelToDisk {S : Sig} (env : Env S) (outputDir : String) (w : World S) :
    Option (GoError S.Error) × World S :=
  match vmCreate env (vmConfig env outputDir) true w with
  | (.error err, w1) =>
    (some (.errorf ("Failed to create a VM Pool : " ++ env.errorString err)), w1)
  | (.ok pool, w1) =>
    match poolCreate env pool 0 w1 with
    | (.error err, w2) =>
      (some (.errorf ("Failed to create the VM Instance : " ++ env.errorString err)), w2)
    | (.ok inst, w2) =>
      let body : Option (GoError S.Error) × World S :=
        match instCopy env inst (env.join outputDir "netbsd") w2 with
        | ((kernel, some err), w3) =>
          (some (.errorf ("Error Copying the kernel " ++ kernel ++ ": " ++
            env.errorString err)), w3)
        | ((_, none), w3) =>
          match instRun env inst Minute "sync" w3 with
          | ((outc, errc, some _), w4) =>
            (some (.errorf ("Error syncing the kernel " ++ env.fmtOutC outc ++ " : " ++
              env.fmtErrC errc)), w4)
          | ((_, _, none), w4) => (none, w4)
      (body.1, instClose env inst body.2)

/-- The list the copy loop of `build` ranges over (lines 50-55). -/
def artifacts (compileDir userspaceDir : String) : List (String × String) :=
  [(compileDir, "netbsd"), (compileDir, "netbsd.gdb"),
   (userspaceDir, "image"), (userspaceDir, "key")]

/-- The copy loop of `build` (lines 50-61) over a list of `(dir, obj)` pairs. -/
def copyArtifacts {S : Sig} (env : Env S) (outputDir : String) :
    List (String × String) → World S → Option (GoError S.Error) × World S
  | [], w => (none, w)
  | s :: rest, w =>
    let fullSrc := env.join s.1 s.2
    let fullDst := env.join outputDir s.2
    match osutilCopyFile env fullSrc fullDst w with
    | (some err, w1) =>
      (some (.errorf ("failed to copy " ++ fullSrc ++ " -> " ++ fullDst ++ ": " ++
        env.errorString err)), w1)
    | (none, w1) => copyArtifacts env outputDir rest w1

/-- The directory `confDir` of `build` (line 24). -/
def confDir (kernelDir targetArch : String) : String :=
  kernelDir ++ "/sys/arch/" ++ targetArch ++ "/conf"

/-- The directory `compileDir` of `build` (line 25). -/
def compileDir (kernelDir targetArch : String) : String :=
  kernelDir ++ "/sys/arch/" ++ targetArch ++ "/compile/obj/" ++ kernelName

/-- Arguments of the two `./build.sh` invocations, up to the final target. -/
def buildArgs {S : Sig} (env : Env S) (targetArch target : String) : List String :=
  ["-m", targetArch, "-U", "-u", "-j" ++ Nat.repr env.numCPU, target]

/-- `netbsd.build` (lines 21-67). -/
def build {S : Sig} (env : Env S) (targetArch vmType kernelDir outputDir compiler
    userspaceDir cmdlineFile sysctlFile : String) (config : String) (w : World S) :
    Option (GoError S.Error) × World S :=
  match osutilWriteFile env (env.join (confDir kernelDir targetArch) kernelName) conf w with
  | (some err, w1) => (some (.raw err), w1)
  | (none, w1) =>
    match osutilRunCmd env (10 * Minute) kernelDir "./build.sh"
        (buildArgs env targetArch "tools") w1 with
    | ((_, some err), w2) => (some (env.extractRootCause (.raw err)), w2)
    | ((_, none), w2) =>
      match osutilRunCmd env (10 * Minute) kernelDir "./build.sh"
          (buildArgs env targetArch ("kernel=" ++ kernelName)) w2 with
      | ((_, some err), w3) => (some (env.extractRootCause (.raw err)), w3)
      | ((_, none), w3) =>
        match copyArtifacts env outputDir
            (artifacts (compileDir kernelDir targetArch) userspaceDir) w3 with
        | (some err, w4) => (some err, w4)
        | (none, w4) =>
          if vmType = "gce" then CopyKernelToDisk env outputDir w4 else (none, w4)

/-- `netbsd.clean` (lines 69-75). -/
def clean {S : Sig} (_env : Env S) (_kernelDir : String) (w : World S) :
    Option (GoError S.Error) × World S :=
  (none, w)

/-! ## Vocabulary of the properties -/

/-- The calls made during a run that started in world `w` and ended in `w'`. -/
def observed {S : Sig} (w w' : World S) : List (Call S) :=
  w'.trace.drop w.trace.length

/-- The `osutil.WriteFile` call made by `build`. -/
def writeCall {S : Sig} (env : Env S) (kernelDir targetArch : String) : Call S :=
  .writeFile (env.join (confDir kernelDir targetArch) kernelName) conf

/-- The `./build.sh ... tools` invocation made by `build`. -/
def toolsCall {S : Sig} (env : Env S) (kernelDir targetArch : String) : Call S :=
  .runCmd (10 * Minute) kernelDir "./build.sh" (buildArgs env targetArch "tools")

/-- The `./build.sh ... kernel=GENERIC_SYZKALLER` invocation made by `build`. -/
def kernelCall {S : Sig} (env : Env S) (kernelDir targetArch : String) : Call S :=
  .runCmd (10 * Minute) kernelDir "./build.sh"
    (buildArgs env targetArch ("kernel=" ++ kernelName))

/-- The `osutil.CopyFile` call the copy loop makes for the pair `s`. -/
def copyCall {S : Sig} (env : Env S) (outputDir : String) (s : String × String) : Call S :=
  .copyFile (env.join s.1 s.2) (env.join outputDir s.2)

/-- Calls of the `vm` package: pool creation and everything done with a pool
or an instance. -/
def Call.isVM {S : Sig} : Call S → Bool
  | .vmCreate _ _ => true
  | .poolCreate _ _ => true
  | .instCopy _ _ => true
  | .instRun _ _ _ => true
  | .instClose _ => true
  | _ => false

/-- Calls of `Instance.Close`. -/
def Call.isClose {S : Sig} : Call S → Bool
  | .instClose _ => true
  | _ => false

/-- Calls of `Instance.Run`. -/
def Call.isRun {S : Sig} : Call S → Bool
  | .instRun _ _ _ => true
  | _ => false

/-- Calls of `osutil.CopyFile`. -/
def Call.isCopyFile {S : Sig} : Call S → Bool
  | .copyFile _ _ => true
  | _ => false

/-- The `(path, bytes)` pairs of the `osutil.WriteFile` calls of a trace. -/
def writtenFiles {S : Sig} : List (Call S) → List (String × String)
  | [] => []
  | .writeFile path data :: cs => (path, data) :: writtenFiles cs
  | _ :: cs => writtenFiles cs

/-- Split a character list at every character satisfying `p`. -/
def splitBy (p : Char → Bool) : List Char → List (List Char)
  | [] => [[]]
  | c :: cs =>
    if p c then [] :: splitBy p cs
    else
      match splitBy p cs with
      | [] => [[c]]
      | x :: xs => (c :: x) :: xs

/-- The blank-separated words of one line of a kernel configuration file. -/
def words (line : List Char) : List String :=
  ((splitBy (fun c => c == ' ' || c == '\t') line).filter (fun t => !t.isEmpty)).map String.mk

/-- The directives of a kernel configuration file: its non-empty lines, each
as its list of words. -/
def directives (text : String) : List (List String) :=
  ((splitBy (fun c => c == '\n') text.data).map words).filter (fun d => !d.isEmpty)

/-! ## Test doubles and the filesystem model -/

/-- Collaborator types of the scripted double: the state counts the
collaborator calls made so far. -/
abbrev scriptSig : Sig := ⟨Nat, String, Unit, Unit, String, String⟩

/-- A scripted double: the collaborator call number `failAt` (counting from 0)
fails, every other call succeeds. -/
def scriptEnv (failAt : Nat) : Env scriptSig where
  join a b := a ++ "/" ++ b
  numCPU := 4
  errorString e := e
  fmtOutC o := o
  fmtErrC e := e
  extractRootCause e :=
    match e with
    | .raw m => .errorf ("root cause of " ++ m)
    | .errorf m => .errorf m
  writeFile _ _ n := (if n = failAt then some "write failed" else none, n + 1)
  runCmd _ _ _ _ n := (("log", if n = failAt then some "exit status 1" else none), n + 1)
  copyFile _ _ n := (if n = failAt then some "no such file" else none, n + 1)
  vmCreate _ _ n := (if n = failAt then .error "no pool" else .ok (), n + 1)
  poolCreate _ _ n := (if n = failAt then .error "no instance" else .ok (), n + 1)
  instCopy _ _ n := (("/netbsd", if n = failAt then some "scp failed" else none), n + 1)
  instRun _ _ _ n := (("stdout", "stderr", if n = failAt then some "exit status 1" else none), n + 1)
  instClose _ n := n + 1

/-- A filesystem: the bytes stored under each path, if any. -/
abbrev FS := String → Option String

/-- The filesystem after storing `data` under `path`. -/
def FS.write (fs : FS) (path data : String) : FS :=
  fun q => if q = path then some data else fs q

/-- Collaborator types whose state is a filesystem. -/
abbrev fsSig : Sig := ⟨FS, String, Unit, Unit, String, String⟩

/-- Modelled from the spec: `osutil.CopyFile` (package osutil, not part of this
file) as the atomic all-or-nothing operation of the filesystem collaborator:
it either fails and leaves the filesystem as it was (the source is missing, or
the copy is refused for another reason, `deny`), or succeeds and the
destination holds the bytes of the source. -/
def copyFileModel (deny : String → String → Bool) (src dst : String) (fs : FS) :
    Option String × FS :=
  if deny src dst then (some ("cannot copy " ++ src), fs)
  else
    match fs src with
    | none => (some ("open " ++ src ++ ": no such file or directory"), fs)
    | some data => (none, fs.write dst data)

/-- Collaborators over a filesystem: writes and copies act on it, the build
tool succeeds without touching it, and there is no VM backend. -/
def fsEnv (deny : String → String → Bool) : Env fsSig where
  join a b := a ++ "/" ++ b
  numCPU := 1
  errorString e := e
  fmtOutC o := o
  fmtErrC e := e
  extractRootCause e := e
  writeFile path data fs := (none, fs.write path data)
  runCmd _ _ _ _ fs := (("", none), fs)
  copyFile := copyFileModel deny
  vmCreate _ _ fs := (.error "no VM backend", fs)
  poolCreate _ _ fs := (.error "no VM backend", fs)
  instCopy _ _ fs := (("", some "no VM backend"), fs)
  instRun _ _ _ fs := (("", "", some "no VM backend"), fs)
  instClose _ fs := fs

/-- A source tree in which the kernel was built but its debug binary is
missing. -/
def fsNoGdb : FS :=
  fun q => if q = "k/sys/arch/amd64/compile/obj/GENERIC_SYZKALLER/netbsd" then some "ELF" else none

/-- The all-or-nothing reading of the copy step: it succeeded and the four
artifacts exist in the output directory, or it failed and the output directory
holds for each artifact name what it held before the call. -/
def AllOrNothing (deny : String → String → Bool) (outputDir compileDir userspaceDir : String)
    (before : FS) (res : Option (GoError String) × World fsSig) : Prop :=
  (res.1 = none ∧ ∀ s ∈ artifacts compileDir userspaceDir,
      (res.2.st ((fsEnv deny).join outputDir s.2)).isSome) ∨
  (res.1 ≠ none ∧ ∀ s ∈ artifacts compileDir userspaceDir,
      res.2.st ((fsEnv deny).join outputDir s.2) = before ((fsEnv deny).join outputDir s.2))

/-! ## The paths of `CopyKernelToDisk` -/

theorem observed_append {S : Sig} (s s' : S.State) (tr delta : List (Call S)) :
    observed ⟨s, tr⟩ ⟨s', tr ++ delta⟩ = delta := by
  simp [observed]

theorem ckd_pool_fails {S : Sig} (env : Env S) (outputDir : String) (s0 s1 : S.State)
    (tr : List (Call S)) (e : S.Error)
    (h1 : env.vmCreate (vmConfig env outputDir) true s0 = (.error e, s1)) :
    CopyKernelToDisk env outputDir ⟨s0, tr⟩ =
      (some (.errorf ("Failed to create a VM Pool : " ++ env.errorString e)),
       ⟨s1, tr ++ [.vmCreate (vmConfig env outputDir) true]⟩) := by
  simp [CopyKernelToDisk, vmCreate, h1]

theorem ckd_inst_fails {S : Sig} (env : Env S) (outputDir : String) (s0 s1 s2 : S.State)
    (tr : List (Call S)) (pool : S.Pool) (e : S.Error)
    (h1 : env.vmCreate (vmConfig env outputDir) true s0 = (.ok pool, s1))
    (h2 : env.poolCreate pool 0 s1 = (.error e, s2)) :
    CopyKernelToDisk env outputDir ⟨s0, tr⟩ =
      (some (.errorf ("Failed to create the VM Instance : " ++ env.errorString e)),
       ⟨s2, tr ++ [.vmCreate (vmConfig env outputDir) true, .poolCreate pool 0]⟩) := by
  simp [CopyKernelToDisk, vmCreate, poolCreate, h1, h2]

theorem ckd_copy_fails {S : Sig} (env : Env S) (outputDir : String) (s0 s1 s2 s3 : S.State)
    (tr : List (Call S)) (pool : S.Pool) (inst : S.Inst) (kernel : String) (e : S.Error)
    (h1 : env.vmCreate (vmConfig env outputDir) true s0 = (.ok pool, s1))
    (h2 : env.poolCreate pool 0 s1 = (.ok inst, s2))
    (h3 : env.instCopy inst (env.join outputDir "netbsd") s2 = ((kernel, some e), s3)) :
    CopyKernelToDisk env outputDir ⟨s0, tr⟩ =
      (some (.errorf ("Error Copying the kernel " ++ kernel ++ ": " ++ env.errorString e)),
       ⟨env.instClose inst s3, tr ++ [.vmCreate (vmConfig env outputDir) true,
          .poolCreate pool 0, .instCopy inst (env.join outputDir "netbsd"),
          .instClose inst]⟩) := by
  simp [CopyKernelToDisk, vmCreate, poolCreate, instCopy, instClose, h1, h2, h3]

theorem ckd_sync_fails {S : Sig} (env : Env S) (outputDir : String)
    (s0 s1 s2 s3 s4 : S.State) (tr : List (Call S)) (pool : S.Pool) (inst : S.Inst)
    (kernel : String) (outc : S.OutC) (errc : S.ErrC) (e : S.Error)
    (h1 : env.vmCreate (vmConfig env outputDir) true s0 = (.ok pool, s1))
    (h2 : env.poolCreate pool 0 s1 = (.ok inst, s2))
    (h3 : env.instCopy inst (env.join outputDir "netbsd") s2 = ((kernel, none), s3))
    (h4 : env.instRun inst Minute "sync" s3 = ((outc, errc, some e), s4)) :
    CopyKernelToDisk env outputDir ⟨s0, tr⟩ =
      (some (.errorf ("Error syncing the kernel " ++ env.fmtOutC outc ++ " : " ++
          env.fmtErrC errc)),
       ⟨env.instClose inst s4, tr ++ [.vmCreate (vmConfig env outputDir) true,
          .poolCreate pool 0, .instCopy inst (env.join outputDir "netbsd"),
          .instRun inst Minute "sync", .instClose inst]⟩) := by
  simp [CopyKernelToDisk, vmCreate, poolCreate, instCopy, instRun, instClose, h1, h2, h3, h4]

theorem ckd_succeeds {S : Sig} (env : Env S) (outputDir : String)
    (s0 s1 s2 s3 s4 : S.State) (tr : List (Call S)) (pool : S.Pool) (inst : S.Inst)
    (kernel : String) (outc : S.OutC) (errc : S.ErrC)
    (h1 : env.vmCreate (vmConfig env outputDir) true s0 = (.ok pool, s1))
    (h2 : env.poolCreate pool 0 s1 = (.ok inst, s2))
    (h3 : env.instCopy inst (env.join outputDir "netbsd") s2 = ((kernel, none), s3))
    (h4 : env.instRun inst Minute "sync" s3 = ((outc, errc, none), s4)) :
    CopyKernelToDisk env outputDir ⟨s0, tr⟩ =
      (none,
       ⟨env.instClose inst s4, tr ++ [.vmCreate (vmConfig env outputDir) true,
          .poolCreate pool 0, .instCopy inst (env.join outputDir "netbsd"),
          .instRun inst Minute "sync", .instClose inst]⟩) := by
  simp [CopyKernelToDisk, vmCreate, poolCreate, instCopy, instRun, instClose, h1, h2, h3, h4]

/-! ## Release of the VM instance -/

/-- C3: one call of `CopyKernelToDisk` makes no `Instance.Close` call when pool
creation fails, none when `pool.Create(0)` fails, and exactly one when
`pool.Create(0)` succeeded; in that case the `Close` of the acquired instance
is the last call recorded before the function returns, and when the kernel
injection (`inst.Copy`) failed no `inst.Run` call is made at all. -/
theorem instance_closed_exactly_once {S : Sig} (env : Env S) (outputDir : String)
    (w : World S) :
    (∀ e s1, env.vmCreate (vmConfig env outputDir) true w.st = (.error e, s1) →
      (observed w (CopyKernelToDisk env outputDir w).2).countP Call.isClose = 0) ∧
    (∀ pool s1 e s2, env.vmCreate (vmConfig env outputDir) true w.st = (.ok pool, s1) →
      env.poolCreate pool 0 s1 = (.error e, s2) →
      (observed w (CopyKernelToDisk env outputDir w).2).countP Call.isClose = 0) ∧
    (∀ pool s1 inst s2, env.vmCreate (vmConfig env outputDir) true w.st = (.ok pool, s1) →
      env.poolCreate pool 0 s1 = (.ok inst, s2) →
      (observed w (CopyKernelToDisk env outputDir w).2).countP Call.isClose = 1 ∧
      (observed w (CopyKernelToDisk env outputDir w).2).getLast? = some (.instClose inst) ∧
      (∀ kernel e s3,
        env.instCopy inst (env.join outputDir "netbsd") s2 = ((kernel, some e), s3) →
        (observed w (CopyKernelToDisk env outputDir w).2).countP Call.isRun = 0)) := by
  obtain ⟨s0, tr⟩ := w
  refine ⟨?_, ?_, ?_⟩
  · intro e s1 h1
    rw [ckd_pool_fails env outputDir s0 s1 tr e h1, observed_append]
    simp [Call.isClose]
  · intro pool s1 e s2 h1 h2
    rw [ckd_inst_fails env outputDir s0 s1 s2 tr pool e h1 h2, observed_append]
    simp [Call.isClose]
  · intro pool s1 inst s2 h1 h2
    rcases h3 : env.instCopy inst (env.join outputDir "netbsd") s2 with ⟨⟨kernel, _ | e3⟩, s3⟩
    · rcases h4 : env.instRun inst Minute "sync" s3 with ⟨⟨outc, errc, _ | e4⟩, s4⟩
      · rw [ckd_succeeds env outputDir s0 s1 s2 s3 s4 tr pool inst kernel outc errc h1 h2 h3 h4,
          observed_append]
        simp [Call.isClose]
      · rw [ckd_sync_fails env outputDir s0 s1 s2 s3 s4 tr pool inst kernel outc errc e4
          h1 h2 h3 h4, observed_append]
        simp [Call.isClose]
    · rw [ckd_copy_fails env outputDir s0 s1 s2 s3 tr pool inst kernel e3 h1 h2 h3,
        observed_append]
      simp [Call.isClose, Call.isRun]

/-- Witness of C3 on the scripted double: pool creation fails (no `Close`),
instance creation fails (no `Close`), kernel injection fails (one `Close`,
last, and no `Run`). -/
theorem instance_closed_exactly_once_witness :
    (observed ⟨0, []⟩ (CopyKernelToDisk (scriptEnv 0) "out" ⟨0, []⟩).2).countP Call.isClose = 0 ∧
    (observed ⟨0, []⟩ (CopyKernelToDisk (scriptEnv 1) "out" ⟨0, []⟩).2).countP Call.isClose = 0 ∧
    ((observed ⟨0, []⟩ (CopyKernelToDisk (scriptEnv 2) "out" ⟨0, []⟩).2).countP Call.isClose = 1 ∧
      (observed ⟨0, []⟩ (CopyKernelToDisk (scriptEnv 2) "out" ⟨0, []⟩).2).getLast? =
        some (.instClose ()) ∧
      (observed ⟨0, []⟩ (CopyKernelToDisk (scriptEnv 2) "out" ⟨0, []⟩).2).countP Call.isRun = 0) :=
  ⟨(instance_closed_exactly_once (scriptEnv 0) "out" ⟨0, []⟩).1 "no pool" 1 rfl,
   (instance_closed_exactly_once (scriptEnv 1) "out" ⟨0, []⟩).2.1 () 1 "no instance" 2 rfl rfl,
   ((instance_closed_exactly_once (scriptEnv 2) "out" ⟨0, []⟩).2.2 () 1 () 2 rfl rfl).1,
   ((instance_closed_exactly_once (scriptEnv 2) "out" ⟨0, []⟩).2.2 () 1 () 2 rfl rfl).2.1,
   ((instance_closed_exactly_once (scriptEnv 2) "out" ⟨0, []⟩).2.2 () 1 () 2 rfl rfl).2.2
     "/netbsd" "scp failed" 3 rfl⟩

/-! ## Failure of the sync command -/

/-- C8: when pool creation, instance creation and kernel injection succeed and
the `sync` run fails returning `(outc, errc, err)`, `CopyKernelToDisk` returns
an error whose message contains the rendering of `outc` and the rendering of
`errc`. -/
theorem sync_failure_reports_both_streams {S : Sig} (env : Env S) (outputDir : String)
    (w : World S) (pool : S.Pool) (inst : S.Inst) (kernel : String) (outc : S.OutC)
    (errc : S.ErrC) (e : S.Error) (s1 s2 s3 s4 : S.State)
    (h1 : env.vmCreate (vmConfig env outputDir) true w.st = (.ok pool, s1))
    (h2 : env.poolCreate pool 0 s1 = (.ok inst, s2))
    (h3 : env.instCopy inst (env.join outputDir "netbsd") s2 = ((kernel, none), s3))
    (h4 : env.instRun inst Minute "sync" s3 = ((outc, errc, some e), s4)) :
    ∃ err, (CopyKernelToDisk env outputDir w).1 = some err ∧
      (env.fmtOutC outc).data <:+: (err.Error env).data ∧
      (env.fmtErrC errc).data <:+: (err.Error env).data := by
  obtain ⟨s0, tr⟩ := w
  rw [ckd_sync_fails env outputDir s0 s1 s2 s3 s4 tr pool inst kernel outc errc e h1 h2 h3 h4]
  refine ⟨_, rfl, ?_, ?_⟩
  · exact ⟨"Error syncing the kernel ".data, (" : " ++ env.fmtErrC errc).data, by
      simp [GoError.Error, String.data_append]⟩
  · exact ⟨("Error syncing the kernel " ++ env.fmtOutC outc ++ " : ").data, [], by
      simp [GoError.Error, String.data_append]⟩

/-- Witness of C8 on the scripted double whose fourth call, the `sync` run,
fails with the streams `stdout` and `stderr`. -/
theorem sync_failure_reports_both_streams_witness :
    ∃ err, (CopyKernelToDisk (scriptEnv 3) "out" ⟨0, []⟩).1 = some err ∧
      "stdout".data <:+: (err.Error (scriptEnv 3)).data ∧
      "stderr".data <:+: (err.Error (scriptEnv 3)).data :=
  sync_failure_reports_both_streams (scriptEnv 3) "out" ⟨0, []⟩ () () "/netbsd"
    "stdout" "stderr" "exit status 1" 1 2 3 4 rfl rfl rfl rfl

/-! ## The copy loop -/

theorem copyArtifacts_fails_at {S : Sig} (env : Env S) (outputDir : String) :
    ∀ (l : List (String × String)) (st : Nat → S.State) (tr : List (Call S)) (i : Nat)
      (s : String × String) (e : S.Error),
      l[i]? = some s →
      (∀ j t, j < i → l[j]? = some t →
        env.copyFile (env.join t.1 t.2) (env.join outputDir t.2) (st j) = (none, st (j + 1))) →
      env.copyFile (env.join s.1 s.2) (env.join outputDir s.2) (st i) = (some e, st (i + 1)) →
      copyArtifacts env outputDir l ⟨st 0, tr⟩ =
        (some (.errorf ("failed to copy " ++ env.join s.1 s.2 ++ " -> " ++
            env.join outputDir s.2 ++ ": " ++ env.errorString e)),
         ⟨st (i + 1), tr ++ (l.take (i + 1)).map (copyCall env outputDir)⟩) := by
  intro l
  induction l with
  | nil => intro st tr i s e hs; simp at hs
  | cons x rest ih =>
    intro st tr i s e hs hok hfail
    cases i with
    | zero =>
      simp at hs
      subst hs
      simp [copyArtifacts, osutilCopyFile, hfail, copyCall]
    | succ i =>
      have h0 := hok 0 x (Nat.succ_pos i) (by simp)
      have hs' : rest[i]? = some s := by simpa using hs
      have hrec := ih (fun j => st (j + 1)) (tr ++ [copyCall env outputDir x]) i s e hs'
        (fun j t hj ht => hok (j + 1) t (Nat.succ_lt_succ hj) (by simpa using ht)) hfail
      simp only [copyArtifacts, osutilCopyFile, h0]
      simpa [copyCall] using hrec

theorem copyArtifacts_all_ok {S : Sig} (env : Env S) (outputDir : String) :
    ∀ (l : List (String × String)) (st : Nat → S.State) (tr : List (Call S)),
      (∀ j t, l[j]? = some t →
        env.copyFile (env.join t.1 t.2) (env.join outputDir t.2) (st j) = (none, st (j + 1))) →
      copyArtifacts env outputDir l ⟨st 0, tr⟩ =
        (none, ⟨st l.length, tr ++ l.map (copyCall env outputDir)⟩) := by
  intro l
  induction l with
  | nil => intro st tr _; simp [copyArtifacts]
  | cons x rest ih =>
    intro st tr hok
    have h0 := hok 0 x (by simp)
    have hrec := ih (fun j => st (j + 1)) (tr ++ [copyCall env outputDir x])
      (fun j t ht => hok (j + 1) t (by simpa using ht))
    simp only [copyArtifacts, osutilCopyFile, h0]
    simpa [copyCall] using hrec

theorem copyArtifacts_trace {S : Sig} (env : Env S) (outputDir : String) :
    ∀ (l : List (String × String)) (w : World S),
      ∃ delta, (copyArtifacts env outputDir l w).2.trace = w.trace ++ delta ∧
        ∀ c ∈ delta, c.isCopyFile = true := by
  intro l
  induction l with
  | nil => intro w; exact ⟨[], by simp [copyArtifacts]⟩
  | cons x rest ih =>
    intro w
    rcases h : env.copyFile (env.join x.1 x.2) (env.join outputDir x.2) w.st with ⟨_ | e, s1⟩
    · obtain ⟨delta, hd, hall⟩ := ih ⟨s1, w.trace ++ [copyCall env outputDir x]⟩
      refine ⟨copyCall env outputDir x :: delta, ?_, ?_⟩
      · simp only [copyArtifacts, osutilCopyFile, h]
        simpa [copyCall] using hd
      · intro c hc
        rcases List.mem_cons.mp hc with rfl | hc
        · rfl
        · exact hall c hc
    · refine ⟨[copyCall env outputDir x], ?_, ?_⟩
      · simp [copyArtifacts, osutilCopyFile, h, copyCall]
      · intro c hc
        simp at hc
        subst hc
        rfl

/-! ## The paths of `build` -/

theorem build_reaches_copy {S : Sig} (env : Env S) (targetArch vmType kernelDir outputDir
    compiler userspaceDir cmdlineFile sysctlFile config : String) (s0 s1 s2 s3 : S.State)
    (tr : List (Call S)) (out1 out2 : String)
    (hw : env.writeFile (env.join (confDir kernelDir targetArch) kernelName) conf s0 =
      (none, s1))
    (ht : env.runCmd (10 * Minute) kernelDir "./build.sh" (buildArgs env targetArch "tools") s1 =
      ((out1, none), s2))
    (hk : env.runCmd (10 * Minute) kernelDir "./build.sh"
      (buildArgs env targetArch ("kernel=" ++ kernelName)) s2 = ((out2, none), s3)) :
    build env targetArch vmType kernelDir outputDir compiler userspaceDir cmdlineFile
        sysctlFile config ⟨s0, tr⟩ =
      match copyArtifacts env outputDir (artifacts (compileDir kernelDir targetArch) userspaceDir)
          ⟨s3, tr ++ [writeCall env kernelDir targetArch, toolsCall env kernelDir targetArch,
            kernelCall env kernelDir targetArch]⟩ with
      | (some err, w4) => (some err, w4)
      | (none, w4) => if vmType = "gce" then CopyKernelToDisk env outputDir w4 else (none, w4) := by
  simp [build, osutilWriteFile, osutilRunCmd, hw, ht, hk, writeCall, toolsCall, kernelCall]

theorem build_write_fails {S : Sig} (env : Env S) (targetArch vmType kernelDir outputDir
    compiler userspaceDir cmdlineFile sysctlFile config : String) (s0 s1 : S.State)
    (tr : List (Call S)) (e : S.Error)
    (hw : env.writeFile (env.join (confDir kernelDir targetArch) kernelName) conf s0 =
      (some e, s1)) :
    build env targetArch vmType kernelDir outputDir compiler userspaceDir cmdlineFile
        sysctlFile config ⟨s0, tr⟩ =
      (some (.raw e), ⟨s1, tr ++ [writeCall env kernelDir targetArch]⟩) := by
  simp [build, osutilWriteFile, hw, writeCall]

theorem build_tools_fails {S : Sig} (env : Env S) (targetArch vmType kernelDir outputDir
    compiler userspaceDir cmdlineFile sysctlFile config : String) (s0 s1 s2 : S.State)
    (tr : List (Call S)) (out : String) (e : S.Error)
    (hw : env.writeFile (env.join (confDir kernelDir targetArch) kernelName) conf s0 =
      (none, s1))
    (ht : env.runCmd (10 * Minute) kernelDir "./build.sh" (buildArgs env targetArch "tools") s1 =
      ((out, some e), s2)) :
    build env targetArch vmType kernelDir outputDir compiler userspaceDir cmdlineFile
        sysctlFile config ⟨s0, tr⟩ =
      (some (env.extractRootCause (.raw e)),
       ⟨s2, tr ++ [writeCall env kernelDir targetArch, toolsCall env kernelDir targetArch]⟩) := by
  simp [build, osutilWriteFile, osutilRunCmd, hw, ht, writeCall, toolsCall]

theorem build_kernel_fails {S : Sig} (env : Env S) (targetArch vmType kernelDir outputDir
    compiler userspaceDir cmdlineFile sysctlFile config : String) (s0 s1 s2 s3 : S.State)
    (tr : List (Call S)) (out1 out2 : String) (e : S.Error)
    (hw : env.writeFile (env.join (confDir kernelDir targetArch) kernelName) conf s0 =
      (none, s1))
    (ht : env.runCmd (10 * Minute) kernelDir "./build.sh" (buildArgs env targetArch "tools") s1 =
      ((out1, none), s2))
    (hk : env.runCmd (10 * Minute) kernelDir "./build.sh"
      (buildArgs env targetArch ("kernel=" ++ kernelName)) s2 = ((out2, some e), s3)) :
    build env targetArch vmType kernelDir outputDir compiler userspaceDir cmdlineFile
        sysctlFile config ⟨s0, tr⟩ =
      (some (env.extractRootCause (.raw e)),
       ⟨s3, tr ++ [writeCall env kernelDir targetArch, toolsCall env kernelDir targetArch,
          kernelCall env kernelDir targetArch]⟩) := by
  simp [build, osutilWriteFile, osutilRunCmd, hw, ht, hk, writeCall, toolsCall, kernelCall]

theorem ckd_trace {S : Sig} (env : Env S) (outputDir : String) (w : World S) :
    ∃ rest, (CopyKernelToDisk env outputDir w).2.trace =
        w.trace ++ Call.vmCreate (vmConfig env outputDir) true :: rest ∧
      ∀ c ∈ rest, c.isVM = true := by
  obtain ⟨s0, tr⟩ := w
  rcases h1 : env.vmCreate (vmConfig env outputDir) true s0 with ⟨e1 | pool, s1⟩
  · exact ⟨[], by rw [ckd_pool_fails env outputDir s0 s1 tr e1 h1], by simp⟩
  · rcases h2 : env.poolCreate pool 0 s1 with ⟨e2 | inst, s2⟩
    · exact ⟨_, by rw [ckd_inst_fails env outputDir s0 s1 s2 tr pool e2 h1 h2],
        by simp [Call.isVM]⟩
    · rcases h3 : env.instCopy inst (env.join outputDir "netbsd") s2 with
        ⟨⟨kernel, _ | e3⟩, s3⟩
      · rcases h4 : env.instRun inst Minute "sync" s3 with ⟨⟨outc, errc, _ | e4⟩, s4⟩
        · exact ⟨_, by rw [ckd_succeeds env outputDir s0 s1 s2 s3 s4 tr pool inst kernel outc
            errc h1 h2 h3 h4], by simp [Call.isVM]⟩
        · exact ⟨_, by rw [ckd_sync_fails env outputDir s0 s1 s2 s3 s4 tr pool inst kernel outc
            errc e4 h1 h2 h3 h4], by simp [Call.isVM]⟩
      · exact ⟨_, by rw [ckd_copy_fails env outputDir s0 s1 s2 s3 tr pool inst kernel e3
          h1 h2 h3], by simp [Call.isVM]⟩

theorem observed_of_trace {S : Sig} (w w' : World S) (delta : List (Call S))
    (h : w'.trace = w.trace ++ delta) : observed w w' = delta := by
  simp [observed, h]

theorem not_vm_before_deployment {S : Sig} (env : Env S) (kernelDir targetArch outputDir : String)
    (l : List (String × String)) :
    ∀ c ∈ [writeCall env kernelDir targetArch, toolsCall env kernelDir targetArch,
        kernelCall env kernelDir targetArch] ++ l.map (copyCall env outputDir),
      c.isVM = false := by
  intro c hc
  simp only [List.mem_append, List.mem_cons, List.mem_map, List.mem_singleton,
    List.not_mem_nil, or_false] at hc
  rcases hc with (rfl | rfl | rfl) | ⟨t, _, rfl⟩ <;> rfl

/-! ## Failures before artifact collection -/

/-- C1: when the write of the configuration fragment fails, `build` returns
that error and the write is the only collaborator call; when the `tools`
invocation fails, `build` returns `extractRootCause` of its error and the
calls are the write and the `tools` invocation only; when the
`kernel=GENERIC_SYZKALLER` invocation fails, `build` returns
`extractRootCause` of its error and the calls are the write and the two
invocations only.  In all three cases no copy and no VM call is made. -/
theorem build_stops_at_first_failure {S : Sig} (env : Env S) (targetArch vmType kernelDir
    outputDir compiler userspaceDir cmdlineFile sysctlFile config : String) (w : World S) :
    (∀ e s1,
      env.writeFile (env.join (confDir kernelDir targetArch) kernelName) conf w.st =
        (some e, s1) →
      build env targetArch vmType kernelDir outputDir compiler userspaceDir cmdlineFile
          sysctlFile config w =
        (some (.raw e), ⟨s1, w.trace ++ [writeCall env kernelDir targetArch]⟩)) ∧
    (∀ out e s1 s2,
      env.writeFile (env.join (confDir kernelDir targetArch) kernelName) conf w.st =
        (none, s1) →
      env.runCmd (10 * Minute) kernelDir "./build.sh" (buildArgs env targetArch "tools") s1 =
        ((out, some e), s2) →
      build env targetArch vmType kernelDir outputDir compiler userspaceDir cmdlineFile
          sysctlFile config w =
        (some (env.extractRootCause (.raw e)),
         ⟨s2, w.trace ++ [writeCall env kernelDir targetArch,
            toolsCall env kernelDir targetArch]⟩)) ∧
    (∀ out1 out2 e s1 s2 s3,
      env.writeFile (env.join (confDir kernelDir targetArch) kernelName) conf w.st =
        (none, s1) →
      env.runCmd (10 * Minute) kernelDir "./build.sh" (buildArgs env targetArch "tools") s1 =
        ((out1, none), s2) →
      env.runCmd (10 * Minute) kernelDir "./build.sh"
        (buildArgs env targetArch ("kernel=" ++ kernelName)) s2 = ((out2, some e), s3) →
      build env targetArch vmType kernelDir outputDir compiler userspaceDir cmdlineFile
          sysctlFile config w =
        (some (env.extractRootCause (.raw e)),
         ⟨s3, w.trace ++ [writeCall env kernelDir targetArch,
            toolsCall env kernelDir targetArch, kernelCall env kernelDir targetArch]⟩)) := by
  obtain ⟨s0, tr⟩ := w
  refine ⟨?_, ?_, ?_⟩
  · intro e s1 hw
    exact build_write_fails env targetArch vmType kernelDir outputDir compiler userspaceDir
      cmdlineFile sysctlFile config s0 s1 tr e hw
  · intro out e s1 s2 hw ht
    exact build_tools_fails env targetArch vmType kernelDir outputDir compiler userspaceDir
      cmdlineFile sysctlFile config s0 s1 s2 tr out e hw ht
  · intro out1 out2 e s1 s2 s3 hw ht hk
    exact build_kernel_fails env targetArch vmType kernelDir outputDir compiler userspaceDir
      cmdlineFile sysctlFile config s0 s1 s2 s3 tr out1 out2 e hw ht hk

/-- Witness of C1 on the scripted double, for a `gce` request: the write
fails, the `tools` invocation fails, the kernel invocation fails. -/
theorem build_stops_at_first_failure_witness :
    build (scriptEnv 0) "amd64" "gce" "k" "out" "gcc" "u" "" "" "" ⟨0, []⟩ =
      (some (.raw "write failed"), ⟨1, [] ++ [writeCall (scriptEnv 0) "k" "amd64"]⟩) ∧
    build (scriptEnv 1) "amd64" "gce" "k" "out" "gcc" "u" "" "" "" ⟨0, []⟩ =
      (some ((scriptEnv 1).extractRootCause (.raw "exit status 1")),
       ⟨2, [] ++ [writeCall (scriptEnv 1) "k" "amd64", toolsCall (scriptEnv 1) "k" "amd64"]⟩) ∧
    build (scriptEnv 2) "amd64" "gce" "k" "out" "gcc" "u" "" "" "" ⟨0, []⟩ =
      (some ((scriptEnv 2).extractRootCause (.raw "exit status 1")),
       ⟨3, [] ++ [writeCall (scriptEnv 2) "k" "amd64", toolsCall (scriptEnv 2) "k" "amd64",
          kernelCall (scriptEnv 2) "k" "amd64"]⟩) :=
  ⟨(build_stops_at_first_failure (scriptEnv 0) "amd64" "gce" "k" "out" "gcc" "u" "" "" ""
      ⟨0, []⟩).1 "write failed" 1 rfl,
   (build_stops_at_first_failure (scriptEnv 1) "amd64" "gce" "k" "out" "gcc" "u" "" "" ""
      ⟨0, []⟩).2.1 "log" "exit status 1" 1 2 rfl rfl,
   (build_stops_at_first_failure (scriptEnv 2) "amd64" "gce" "k" "out" "gcc" "u" "" "" ""
      ⟨0, []⟩).2.2 "log" "log" "exit status 1" 1 2 3 rfl rfl rfl⟩

/-! ## Failure of an artifact copy -/

/-- C2: when the write and both build invocations succeed and the copy at
position `i` of the artifact list is the first one to fail, `build` makes,
after the write and the two invocations, exactly the copies of positions
`0..i` in list order and nothing else, returns an error whose message contains
the source path and the destination path of pair `i`, and makes no VM call,
whatever `vmType` is. -/
theorem copy_failure_aborts {S : Sig} (env : Env S) (targetArch vmType kernelDir outputDir
    compiler userspaceDir cmdlineFile sysctlFile config : String) (s0 s1 s2 : S.State)
    (st : Nat → S.State) (tr : List (Call S)) (out1 out2 : String) (i : Nat)
    (s : String × String) (e : S.Error)
    (hw : env.writeFile (env.join (confDir kernelDir targetArch) kernelName) conf s0 =
      (none, s1))
    (ht : env.runCmd (10 * Minute) kernelDir "./build.sh" (buildArgs env targetArch "tools") s1 =
      ((out1, none), s2))
    (hk : env.runCmd (10 * Minute) kernelDir "./build.sh"
      (buildArgs env targetArch ("kernel=" ++ kernelName)) s2 = ((out2, none), st 0))
    (hs : (artifacts (compileDir kernelDir targetArch) userspaceDir)[i]? = some s)
    (hok : ∀ j t, j < i → (artifacts (compileDir kernelDir targetArch) userspaceDir)[j]? = some t →
      env.copyFile (env.join t.1 t.2) (env.join outputDir t.2) (st j) = (none, st (j + 1)))
    (hfail : env.copyFile (env.join s.1 s.2) (env.join outputDir s.2) (st i) =
      (some e, st (i + 1))) :
    ∃ err,
      build env targetArch vmType kernelDir outputDir compiler userspaceDir cmdlineFile
          sysctlFile config ⟨s0, tr⟩ =
        (some err, ⟨st (i + 1),
          tr ++ ([writeCall env kernelDir targetArch, toolsCall env kernelDir targetArch,
              kernelCall env kernelDir targetArch] ++
            ((artifacts (compileDir kernelDir targetArch) userspaceDir).take (i + 1)).map
              (copyCall env outputDir))⟩) ∧
      (env.join s.1 s.2).data <:+: (err.Error env).data ∧
      (env.join outputDir s.2).data <:+: (err.Error env).data ∧
      ∀ c ∈ observed ⟨s0, tr⟩ (build env targetArch vmType kernelDir outputDir compiler
          userspaceDir cmdlineFile sysctlFile config ⟨s0, tr⟩).2, c.isVM = false := by
  have hb := build_reaches_copy env targetArch vmType kernelDir outputDir compiler userspaceDir
    cmdlineFile sysctlFile config s0 s1 s2 (st 0) tr out1 out2 hw ht hk
  have hc := copyArtifacts_fails_at env outputDir
    (artifacts (compileDir kernelDir targetArch) userspaceDir) st
    (tr ++ [writeCall env kernelDir targetArch, toolsCall env kernelDir targetArch,
      kernelCall env kernelDir targetArch]) i s e hs hok hfail
  rw [hc] at hb
  simp only [List.append_assoc] at hb
  refine ⟨_, hb, ?_, ?_, ?_⟩
  · exact ⟨"failed to copy ".data,
      (" -> " ++ env.join outputDir s.2 ++ ": " ++ env.errorString e).data, by
        simp [GoError.Error, String.data_append]⟩
  · exact ⟨("failed to copy " ++ env.join s.1 s.2 ++ " -> ").data,
      (": " ++ env.errorString e).data, by simp [GoError.Error, String.data_append]⟩
  · rw [hb, observed_append]
    exact not_vm_before_deployment env kernelDir targetArch outputDir _

/-- Witness of C2 on the scripted double for a `gce` request: the second copy
(the debug binary) is the first to fail. -/
theorem copy_failure_aborts_witness :
    ∃ err,
      build (scriptEnv 4) "amd64" "gce" "k" "out" "gcc" "u" "" "" "" ⟨0, []⟩ =
        (some err, ⟨1 + 4,
          [] ++ ([writeCall (scriptEnv 4) "k" "amd64", toolsCall (scriptEnv 4) "k" "amd64",
              kernelCall (scriptEnv 4) "k" "amd64"] ++
            ((artifacts (compileDir "k" "amd64") "u").take (1 + 1)).map
              (copyCall (scriptEnv 4) "out"))⟩) ∧
      ((scriptEnv 4).join (compileDir "k" "amd64") "netbsd.gdb").data <:+:
        (err.Error (scriptEnv 4)).data ∧
      ((scriptEnv 4).join "out" "netbsd.gdb").data <:+: (err.Error (scriptEnv 4)).data ∧
      ∀ c ∈ observed ⟨0, []⟩ (build (scriptEnv 4) "amd64" "gce" "k" "out" "gcc" "u" "" "" ""
          ⟨0, []⟩).2, c.isVM = false :=
  copy_failure_aborts (scriptEnv 4) "amd64" "gce" "k" "out" "gcc" "u" "" "" "" 0 1 2
    (fun j => j + 3) [] "log" "log" 1 (compileDir "k" "amd64", "netbsd.gdb") "no such file"
    rfl rfl rfl rfl
    (fun j t hj _ => by
      have h0 : j = 0 := by omega
      subst h0
      rfl)
    rfl

/-! ## The successful run -/

/-- C4: for `targetArch = "amd64"` and `vmType = "gce"`, when the write, both
build invocations, the four copies and every VM call succeed, `build` returns
no error and the calls it makes are exactly, in this order: the write of the
fragment, the `tools` invocation, the kernel invocation, the copies of
`netbsd`, `netbsd.gdb`, `image` and `key`, one pool creation, one instance
creation with index 0, one injection of `join(outputDir, "netbsd")`, one
`sync` run with a timeout of one minute, and one `Close`. -/
theorem build_gce_success_sequence {S : Sig} (env : Env S) (kernelDir outputDir compiler
    userspaceDir cmdlineFile sysctlFile config : String)
    (s0 s1 s2 s3 s4 s5 s6 s7 s8 s9 s10 s11 : S.State) (tr : List (Call S))
    (out1 out2 kernel : String) (pool : S.Pool) (inst : S.Inst) (outc : S.OutC) (errc : S.ErrC)
    (hw : env.writeFile (env.join (confDir kernelDir "amd64") kernelName) conf s0 = (none, s1))
    (ht : env.runCmd (10 * Minute) kernelDir "./build.sh" (buildArgs env "amd64" "tools") s1 =
      ((out1, none), s2))
    (hk : env.runCmd (10 * Minute) kernelDir "./build.sh"
      (buildArgs env "amd64" ("kernel=" ++ kernelName)) s2 = ((out2, none), s3))
    (hc0 : env.copyFile (env.join (compileDir kernelDir "amd64") "netbsd")
      (env.join outputDir "netbsd") s3 = (none, s4))
    (hc1 : env.copyFile (env.join (compileDir kernelDir "amd64") "netbsd.gdb")
      (env.join outputDir "netbsd.gdb") s4 = (none, s5))
    (hc2 : env.copyFile (env.join userspaceDir "image") (env.join outputDir "image") s5 =
      (none, s6))
    (hc3 : env.copyFile (env.join userspaceDir "key") (env.join outputDir "key") s6 =
      (none, s7))
    (hp : env.vmCreate (vmConfig env outputDir) true s7 = (.ok pool, s8))
    (hi : env.poolCreate pool 0 s8 = (.ok inst, s9))
    (hj : env.instCopy inst (env.join outputDir "netbsd") s9 = ((kernel, none), s10))
    (hr : env.instRun inst Minute "sync" s10 = ((outc, errc, none), s11)) :
    build env "amd64" "gce" kernelDir outputDir compiler userspaceDir cmdlineFile sysctlFile
        config ⟨s0, tr⟩ =
      (none, ⟨env.instClose inst s11, tr ++
        [.writeFile (env.join (confDir kernelDir "amd64") "GENERIC_SYZKALLER") conf,
         .runCmd (10 * Minute) kernelDir "./build.sh"
           ["-m", "amd64", "-U", "-u", "-j" ++ Nat.repr env.numCPU, "tools"],
         .runCmd (10 * Minute) kernelDir "./build.sh"
           ["-m", "amd64", "-U", "-u", "-j" ++ Nat.repr env.numCPU, "kernel=GENERIC_SYZKALLER"],
         .copyFile (env.join (compileDir kernelDir "amd64") "netbsd")
           (env.join outputDir "netbsd"),
         .copyFile (env.join (compileDir kernelDir "amd64") "netbsd.gdb")
           (env.join outputDir "netbsd.gdb"),
         .copyFile (env.join userspaceDir "image") (env.join outputDir "image"),
         .copyFile (env.join userspaceDir "key") (env.join outputDir "key"),
         .vmCreate (vmConfig env outputDir) true,
         .poolCreate pool 0,
         .instCopy inst (env.join outputDir "netbsd"),
         .instRun inst (60 * 1000000000) "sync",
         .instClose inst]⟩) := by
  rw [build_reaches_copy env "amd64" "gce" kernelDir outputDir compiler userspaceDir
    cmdlineFile sysctlFile config s0 s1 s2 s3 tr out1 out2 hw ht hk]
  simp only [copyArtifacts, artifacts, osutilCopyFile, hc0, hc1, hc2, hc3, if_true]
  rw [ckd_succeeds env outputDir s7 s8 s9 s10 s11 _ pool inst kernel outc errc hp hi hj hr]
  simp [writeCall, toolsCall, kernelCall, buildArgs, kernelName, Minute]

/-- Witness of C4 on the scripted double in which no call fails. -/
theorem build_gce_success_sequence_witness :
    build (scriptEnv 12) "amd64" "gce" "k" "out" "gcc" "u" "" "" "" ⟨0, []⟩ =
      (none, ⟨(scriptEnv 12).instClose () 11, [] ++
        [.writeFile ((scriptEnv 12).join (confDir "k" "amd64") "GENERIC_SYZKALLER") conf,
         .runCmd (10 * Minute) "k" "./build.sh"
           ["-m", "amd64", "-U", "-u", "-j" ++ Nat.repr (scriptEnv 12).numCPU, "tools"],
         .runCmd (10 * Minute) "k" "./build.sh"
           ["-m", "amd64", "-U", "-u", "-j" ++ Nat.repr (scriptEnv 12).numCPU,
            "kernel=GENERIC_SYZKALLER"],
         .copyFile ((scriptEnv 12).join (compileDir "k" "amd64") "netbsd")
           ((scriptEnv 12).join "out" "netbsd"),
         .copyFile ((scriptEnv 12).join (compileDir "k" "amd64") "netbsd.gdb")
           ((scriptEnv 12).join "out" "netbsd.gdb"),
         .copyFile ((scriptEnv 12).join "u" "image") ((scriptEnv 12).join "out" "image"),
         .copyFile ((scriptEnv 12).join "u" "key") ((scriptEnv 12).join "out" "key"),
         .vmCreate (vmConfig (scriptEnv 12) "out") true,
         .poolCreate () 0,
         .instCopy () ((scriptEnv 12).join "out" "netbsd"),
         .instRun () (60 * 1000000000) "sync",
         .instClose ()]⟩) :=
  build_gce_success_sequence (scriptEnv 12) "k" "out" "gcc" "u" "" "" ""
    0 1 2 3 4 5 6 7 8 9 10 11 [] "log" "log" "/netbsd" () () "stdout" "stderr"
    rfl rfl rfl rfl rfl rfl rfl rfl rfl rfl rfl

/-! ## When the VM deployment runs -/

/-- C5: when the write, both build invocations and the four copies succeed,
`build` returns what `CopyKernelToDisk(outputDir)` returns from the state
reached after the copies if `vmType` is `gce`, and returns no error in that
same state otherwise; a VM call is made during the run if and only if
`vmType` is `gce`. -/
theorem vm_deployment_iff_gce {S : Sig} (env : Env S) (targetArch vmType kernelDir outputDir
    compiler userspaceDir cmdlineFile sysctlFile config : String) (s0 s1 s2 : S.State)
    (st : Nat → S.State) (tr : List (Call S)) (out1 out2 : String)
    (hw : env.writeFile (env.join (confDir kernelDir targetArch) kernelName) conf s0 =
      (none, s1))
    (ht : env.runCmd (10 * Minute) kernelDir "./build.sh" (buildArgs env targetArch "tools") s1 =
      ((out1, none), s2))
    (hk : env.runCmd (10 * Minute) kernelDir "./build.sh"
      (buildArgs env targetArch ("kernel=" ++ kernelName)) s2 = ((out2, none), st 0))
    (hok : ∀ j t, (artifacts (compileDir kernelDir targetArch) userspaceDir)[j]? = some t →
      env.copyFile (env.join t.1 t.2) (env.join outputDir t.2) (st j) = (none, st (j + 1))) :
    build env targetArch vmType kernelDir outputDir compiler userspaceDir cmdlineFile
        sysctlFile config ⟨s0, tr⟩ =
      (if vmType = "gce" then
        CopyKernelToDisk env outputDir ⟨st 4,
          tr ++ ([writeCall env kernelDir targetArch, toolsCall env kernelDir targetArch,
              kernelCall env kernelDir targetArch] ++
            (artifacts (compileDir kernelDir targetArch) userspaceDir).map
              (copyCall env outputDir))⟩
      else
        (none, ⟨st 4,
          tr ++ ([writeCall env kernelDir targetArch, toolsCall env kernelDir targetArch,
              kernelCall env kernelDir targetArch] ++
            (artifacts (compileDir kernelDir targetArch) userspaceDir).map
              (copyCall env outputDir))⟩)) ∧
    ((∃ c ∈ observed ⟨s0, tr⟩ (build env targetArch vmType kernelDir outputDir compiler
        userspaceDir cmdlineFile sysctlFile config ⟨s0, tr⟩).2, c.isVM = true) ↔
      vmType = "gce") := by
  have hb := build_reaches_copy env targetArch vmType kernelDir outputDir compiler userspaceDir
    cmdlineFile sysctlFile config s0 s1 s2 (st 0) tr out1 out2 hw ht hk
  have hc := copyArtifacts_all_ok env outputDir
    (artifacts (compileDir kernelDir targetArch) userspaceDir) st
    (tr ++ [writeCall env kernelDir targetArch, toolsCall env kernelDir targetArch,
      kernelCall env kernelDir targetArch]) hok
  rw [hc] at hb
  have hlen : (artifacts (compileDir kernelDir targetArch) userspaceDir).length = 4 := rfl
  simp only [List.append_assoc, hlen] at hb
  refine ⟨hb, ?_⟩
  rw [hb]
  by_cases hg : vmType = "gce"
  · simp only [hg, if_true, iff_true]
    obtain ⟨rest, hrest, _⟩ := ckd_trace env outputDir ⟨st 4,
      tr ++ ([writeCall env kernelDir targetArch, toolsCall env kernelDir targetArch,
          kernelCall env kernelDir targetArch] ++
        (artifacts (compileDir kernelDir targetArch) userspaceDir).map (copyCall env outputDir))⟩
    refine ⟨Call.vmCreate (vmConfig env outputDir) true, ?_, rfl⟩
    rw [observed_of_trace ⟨s0, tr⟩ _
      ([writeCall env kernelDir targetArch, toolsCall env kernelDir targetArch,
          kernelCall env kernelDir targetArch] ++
        ((artifacts (compileDir kernelDir targetArch) userspaceDir).map (copyCall env outputDir) ++
          Call.vmCreate (vmConfig env outputDir) true :: rest))
      (by rw [hrest]; simp only [List.append_assoc])]
    simp
  · simp only [hg, if_false, iff_false, observed_append]
    rintro ⟨c, hc, hvm⟩
    rw [not_vm_before_deployment env kernelDir targetArch outputDir _ c hc] at hvm
    exact Bool.false_ne_true hvm

/-- Witness of C5 on the scripted double in which no call fails, for a request
whose `vmType` is `qemu`. -/
theorem vm_deployment_iff_gce_witness :
    build (scriptEnv 0) "amd64" "qemu" "k" "out" "gcc" "u" "" "" "" ⟨1, []⟩ =
      (if "qemu" = "gce" then
        CopyKernelToDisk (scriptEnv 0) "out" ⟨4 + 4,
          [] ++ ([writeCall (scriptEnv 0) "k" "amd64", toolsCall (scriptEnv 0) "k" "amd64",
              kernelCall (scriptEnv 0) "k" "amd64"] ++
            (artifacts (compileDir "k" "amd64") "u").map (copyCall (scriptEnv 0) "out"))⟩
      else
        (none, ⟨4 + 4,
          [] ++ ([writeCall (scriptEnv 0) "k" "amd64", toolsCall (scriptEnv 0) "k" "amd64",
              kernelCall (scriptEnv 0) "k" "amd64"] ++
            (artifacts (compileDir "k" "amd64") "u").map (copyCall (scriptEnv 0) "out"))⟩)) ∧
    ((∃ c ∈ observed ⟨1, []⟩ (build (scriptEnv 0) "amd64" "qemu" "k" "out" "gcc" "u" "" "" ""
        ⟨1, []⟩).2, c.isVM = true) ↔ "qemu" = "gce") :=
  vm_deployment_iff_gce (scriptEnv 0) "amd64" "qemu" "k" "out" "gcc" "u" "" "" "" 1 2 3
    (fun j => j + 4) [] "log" "log" rfl rfl rfl
    (fun j t _ => by simp [scriptEnv])

/-! ## The configuration fragment -/

theorem writtenFiles_append {S : Sig} (l1 l2 : List (Call S)) :
    writtenFiles (l1 ++ l2) = writtenFiles l1 ++ writtenFiles l2 := by
  induction l1 with
  | nil => rfl
  | cons c cs ih => cases c <;> simp [writtenFiles, ih]

theorem writtenFiles_of_copies {S : Sig} (l : List (Call S))
    (h : ∀ c ∈ l, c.isCopyFile = true) : writtenFiles l = [] := by
  induction l with
  | nil => rfl
  | cons c cs ih =>
    have hc := h c (List.mem_cons_self c cs)
    have hcs := ih (fun d hd => h d (List.mem_cons_of_mem c hd))
    cases c <;> simp_all [writtenFiles, Call.isCopyFile]

theorem writtenFiles_of_vm {S : Sig} (l : List (Call S))
    (h : ∀ c ∈ l, c.isVM = true) : writtenFiles l = [] := by
  induction l with
  | nil => rfl
  | cons c cs ih =>
    have hc := h c (List.mem_cons_self c cs)
    have hcs := ih (fun d hd => h d (List.mem_cons_of_mem c hd))
    cases c <;> simp_all [writtenFiles, Call.isVM]

theorem build_writes_once {S : Sig} (env : Env S) (targetArch vmType kernelDir outputDir
    compiler userspaceDir cmdlineFile sysctlFile config : String) (w : World S) :
    writtenFiles (observed w (build env targetArch vmType kernelDir outputDir compiler
        userspaceDir cmdlineFile sysctlFile config w).2) =
      [(env.join (confDir kernelDir targetArch) kernelName, conf)] := by
  obtain ⟨s0, tr⟩ := w
  rcases hw : env.writeFile (env.join (confDir kernelDir targetArch) kernelName) conf s0 with
    ⟨_ | e, s1⟩
  swap
  · rw [build_write_fails env targetArch vmType kernelDir outputDir compiler
      userspaceDir cmdlineFile sysctlFile config s0 s1 tr e hw, observed_append]
    rfl
  rcases ht : env.runCmd (10 * Minute) kernelDir "./build.sh" (buildArgs env targetArch "tools")
    s1 with ⟨⟨out1, _ | e⟩, s2⟩
  swap
  · rw [build_tools_fails env targetArch vmType kernelDir outputDir compiler
      userspaceDir cmdlineFile sysctlFile config s0 s1 s2 tr out1 e hw ht, observed_append]
    rfl
  rcases hk : env.runCmd (10 * Minute) kernelDir "./build.sh"
    (buildArgs env targetArch ("kernel=" ++ kernelName)) s2 with ⟨⟨out2, _ | e⟩, s3⟩
  swap
  · rw [build_kernel_fails env targetArch vmType kernelDir outputDir compiler
      userspaceDir cmdlineFile sysctlFile config s0 s1 s2 s3 tr out1 out2 e hw ht hk,
      observed_append]
    rfl
  rw [build_reaches_copy env targetArch vmType kernelDir outputDir compiler userspaceDir
    cmdlineFile sysctlFile config s0 s1 s2 s3 tr out1 out2 hw ht hk]
  obtain ⟨delta, hd, hcopies⟩ := copyArtifacts_trace env outputDir
    (artifacts (compileDir kernelDir targetArch) userspaceDir)
    ⟨s3, tr ++ [writeCall env kernelDir targetArch, toolsCall env kernelDir targetArch,
      kernelCall env kernelDir targetArch]⟩
  rcases hres : copyArtifacts env outputDir
    (artifacts (compileDir kernelDir targetArch) userspaceDir)
    ⟨s3, tr ++ [writeCall env kernelDir targetArch, toolsCall env kernelDir targetArch,
      kernelCall env kernelDir targetArch]⟩ with ⟨_ | e, w4⟩
  · rw [hres] at hd
    simp only at hd
    by_cases hg : vmType = "gce"
    · obtain ⟨rest, hrest, hvm⟩ := ckd_trace env outputDir w4
      simp only [hg, if_true]
      rw [observed_of_trace ⟨s0, tr⟩ _
        ([writeCall env kernelDir targetArch, toolsCall env kernelDir targetArch,
            kernelCall env kernelDir targetArch] ++
          (delta ++ Call.vmCreate (vmConfig env outputDir) true :: rest))
        (by rw [hrest, hd]; simp only [List.append_assoc])]
      have hv : writtenFiles (Call.vmCreate (vmConfig env outputDir) true :: rest) = [] :=
        writtenFiles_of_vm _ (by
          intro c hc
          rcases List.mem_cons.mp hc with rfl | hc
          · rfl
          · exact hvm c hc)
      rw [writtenFiles_append, writtenFiles_append, writtenFiles_of_copies delta hcopies, hv]
      rfl
    · simp only [hg, if_false]
      rw [observed_of_trace ⟨s0, tr⟩ _
        ([writeCall env kernelDir targetArch, toolsCall env kernelDir targetArch,
            kernelCall env kernelDir targetArch] ++ delta)
        (by rw [hd]; simp only [List.append_assoc])]
      rw [writtenFiles_append, writtenFiles_of_copies delta hcopies]
      rfl
  · rw [hres] at hd
    simp only at hd
    rw [observed_of_trace ⟨s0, tr⟩ _
      ([writeCall env kernelDir targetArch, toolsCall env kernelDir targetArch,
          kernelCall env kernelDir targetArch] ++ delta)
      (by rw [hd]; simp only [List.append_assoc])]
    rw [writtenFiles_append, writtenFiles_of_copies delta hcopies]
    rfl

/-- C9: every call of `build` writes exactly one file, whose bytes are the
fragment `conf`; the fragment has the directives `makeoptions KASAN=1`,
`options KASAN` and `no options SVS` (a directive is the list of the
blank-separated words of a line), its only directive mentioning `SVS` is the
negating one, and a second call for the same architecture writes the same
bytes whatever its other arguments, its collaborators and its starting state
are. -/
theorem fragment_hardened_and_deterministic {S S' : Sig} (env : Env S) (env' : Env S')
    (targetArch : String)
    (vmType kernelDir outputDir compiler userspaceDir cmdlineFile sysctlFile config : String)
    (vmType' kernelDir' outputDir' compiler' userspaceDir' cmdlineFile' sysctlFile'
      config' : String) (w : World S) (w' : World S') :
    (writtenFiles (observed w (build env targetArch vmType kernelDir outputDir compiler
      userspaceDir cmdlineFile sysctlFile config w).2)).map Prod.snd = [conf] ∧
    ["makeoptions", "KASAN=1"] ∈ directives conf ∧
    ["options", "KASAN"] ∈ directives conf ∧
    ["no", "options", "SVS"] ∈ directives conf ∧
    (∀ d ∈ directives conf, "SVS" ∈ d → d = ["no", "options", "SVS"]) ∧
    (writtenFiles (observed w' (build env' targetArch vmType' kernelDir' outputDir' compiler'
      userspaceDir' cmdlineFile' sysctlFile' config' w').2)).map Prod.snd =
    (writtenFiles (observed w (build env targetArch vmType kernelDir outputDir compiler
      userspaceDir cmdlineFile sysctlFile config w).2)).map Prod.snd := by
  refine ⟨?_, ?_, ?_, ?_, ?_, ?_⟩
  · rw [build_writes_once]
    rfl
  · decide
  · decide
  · decide
  · decide
  · rw [build_writes_once, build_writes_once]
    rfl

/-- C6 at the architecture `i386`: the one file `build` writes is
`GENERIC_SYZKALLER` in the configuration directory of `i386`, and its include
directive names `arch/amd64/conf/GENERIC`, not `arch/i386/conf/GENERIC`. -/
theorem fragment_for_i386_includes_amd64 {S : Sig} (env : Env S) (vmType kernelDir outputDir
    compiler userspaceDir cmdlineFile sysctlFile config : String) (w : World S) :
    writtenFiles (observed w (build env "i386" vmType kernelDir outputDir compiler
        userspaceDir cmdlineFile sysctlFile config w).2) =
      [(env.join (kernelDir ++ "/sys/arch/" ++ "i386" ++ "/conf") "GENERIC_SYZKALLER", conf)] ∧
    ["include", "\"arch/amd64/conf/GENERIC\""] ∈ directives conf ∧
    ["include", "\"arch/i386/conf/GENERIC\""] ∉ directives conf ∧
    (∀ d ∈ directives conf, d.head? = some "include" →
      d = ["include", "\"arch/amd64/conf/GENERIC\""]) := by
  refine ⟨?_, ?_, ?_, ?_⟩
  · rw [build_writes_once]
    rfl
  · decide
  · decide
  · decide

/-! ## Clean -/

/-- C10: for every `kernelDir`, `clean` returns no error, leaves the
collaborator state (the filesystem) as it was and makes no collaborator
call. -/
theorem clean_is_noop {S : Sig} (env : Env S) (kernelDir : String) (w : World S) :
    (clean env kernelDir w).1 = none ∧
    (clean env kernelDir w).2.st = w.st ∧
    observed w (clean env kernelDir w).2 = [] := by
  simp [clean, observed]

/-! ## The copy step on a filesystem -/

theorem copyFileModel_ok (deny : String → String → Bool) (src dst : String) (fs fs1 : FS)
    (h : copyFileModel deny src dst fs = (none, fs1)) :
    (fs1 dst).isSome ∧ ∀ p, (fs p).isSome → (fs1 p).isSome := by
  unfold copyFileModel at h
  split at h
  · simp at h
  · split at h
    · simp at h
    · simp only [Prod.mk.injEq, true_and] at h
      subst h
      refine ⟨by simp [FS.write], ?_⟩
      intro p hp
      unfold FS.write
      split
      · rfl
      · exact hp

theorem copyFileModel_fails (deny : String → String → Bool) (src dst : String) (fs fs1 : FS)
    (e : String) (h : copyFileModel deny src dst fs = (some e, fs1)) : fs1 = fs := by
  unfold copyFileModel at h
  split at h
  · simp only [Prod.mk.injEq] at h
    exact h.2.symm
  · split at h
    · simp only [Prod.mk.injEq] at h
      exact h.2.symm
    · simp at h

theorem copyArtifacts_keeps_files (deny : String → String → Bool) (outputDir : String) :
    ∀ (l : List (String × String)) (w : World fsSig) (p : String),
      (w.st p).isSome → ((copyArtifacts (fsEnv deny) outputDir l w).2.st p).isSome := by
  intro l
  induction l with
  | nil => intro w p hp; simpa [copyArtifacts] using hp
  | cons x rest ih =>
    intro w p hp
    rcases h : copyFileModel deny ((fsEnv deny).join x.1 x.2) ((fsEnv deny).join outputDir x.2)
      w.st with ⟨_ | e, fs1⟩
    · have h' : (fsEnv deny).copyFile ((fsEnv deny).join x.1 x.2)
          ((fsEnv deny).join outputDir x.2) w.st = (none, fs1) := h
      simp only [copyArtifacts, osutilCopyFile, h']
      exact ih _ p ((copyFileModel_ok deny _ _ _ _ h).2 p hp)
    · have h' : (fsEnv deny).copyFile ((fsEnv deny).join x.1 x.2)
          ((fsEnv deny).join outputDir x.2) w.st = (some e, fs1) := h
      have hfs := copyFileModel_fails deny _ _ _ _ e h
      subst hfs
      simpa [copyArtifacts, osutilCopyFile, h'] using hp

theorem copyArtifacts_outcome (deny : String → String → Bool) (outputDir : String) :
    ∀ (l : List (String × String)) (w : World fsSig),
      ∃ (i : Nat) (st : Nat → FS), i ≤ l.length ∧ st 0 = w.st ∧
        (∀ j t, j < i → l[j]? = some t →
          (fsEnv deny).copyFile ((fsEnv deny).join t.1 t.2) ((fsEnv deny).join outputDir t.2)
            (st j) = (none, st (j + 1))) ∧
        (∀ t, l[i]? = some t → ∃ e,
          (fsEnv deny).copyFile ((fsEnv deny).join t.1 t.2) ((fsEnv deny).join outputDir t.2)
            (st i) = (some e, st i) ∧
          (copyArtifacts (fsEnv deny) outputDir l w).1 =
            some (.errorf ("failed to copy " ++ (fsEnv deny).join t.1 t.2 ++ " -> " ++
              (fsEnv deny).join outputDir t.2 ++ ": " ++ e))) ∧
        ((copyArtifacts (fsEnv deny) outputDir l w).1 = none ↔ i = l.length) ∧
        (copyArtifacts (fsEnv deny) outputDir l w).2.st = st i ∧
        (∀ s ∈ l.take i,
          ((copyArtifacts (fsEnv deny) outputDir l w).2.st
            ((fsEnv deny).join outputDir s.2)).isSome) ∧
        (copyArtifacts (fsEnv deny) outputDir l w).2.trace =
          w.trace ++ (l.take (i + 1)).map (copyCall (fsEnv deny) outputDir) := by
  intro l
  induction l with
  | nil =>
    intro w
    exact ⟨0, fun _ => w.st, by simp [copyArtifacts]⟩
  | cons x rest ih =>
    intro w
    rcases h : copyFileModel deny ((fsEnv deny).join x.1 x.2) ((fsEnv deny).join outputDir x.2)
      w.st with ⟨_ | e, fs1⟩
    · have h' : (fsEnv deny).copyFile ((fsEnv deny).join x.1 x.2)
          ((fsEnv deny).join outputDir x.2) w.st = (none, fs1) := h
      obtain ⟨i, st, hi, hst0, hok, hfail, hiff, hfin, hex, htr⟩ :=
        ih ⟨fs1, w.trace ++ [copyCall (fsEnv deny) outputDir x]⟩
      have hstep : copyArtifacts (fsEnv deny) outputDir (x :: rest) w =
          copyArtifacts (fsEnv deny) outputDir rest
            ⟨fs1, w.trace ++ [copyCall (fsEnv deny) outputDir x]⟩ := by
        simp only [copyArtifacts, osutilCopyFile, h']
        rfl
      refine ⟨i + 1, fun j => if j = 0 then w.st else st (j - 1), by simpa using hi, by simp,
        ?_, ?_, ?_, ?_, ?_, ?_⟩
      · intro j t hj ht
        cases j with
        | zero =>
          simp only [List.getElem?_cons_zero, Option.some.injEq] at ht
          subst ht
          simpa [hst0] using h'
        | succ j =>
          have ht' : rest[j]? = some t := by simpa using ht
          simpa using hok j t (Nat.lt_of_succ_lt_succ hj) ht'
      · intro t ht
        have ht' : rest[i]? = some t := by simpa using ht
        obtain ⟨e, he, hres⟩ := hfail t ht'
        refine ⟨e, by simpa using he, ?_⟩
        rw [hstep]
        exact hres
      · rw [hstep, hiff]
        simp
      · rw [hstep, hfin]
        simp
      · intro s hs
        rw [hstep]
        simp only [List.take_succ_cons, List.mem_cons] at hs
        rcases hs with rfl | hs
        · exact copyArtifacts_keeps_files deny outputDir rest _ _
            (copyFileModel_ok deny _ _ _ _ h).1
        · exact hex s hs
      · rw [hstep, htr]
        simp
    · have h' : (fsEnv deny).copyFile ((fsEnv deny).join x.1 x.2)
          ((fsEnv deny).join outputDir x.2) w.st = (some e, fs1) := h
      have hfs := copyFileModel_fails deny _ _ _ _ e h
      subst hfs
      refine ⟨0, fun _ => w.st, by simp, rfl, ?_, ?_, ?_, ?_, by simp, ?_⟩
      · intro j t hj
        exact absurd hj (Nat.not_lt_zero j)
      · intro t ht
        simp only [List.getElem?_cons_zero, Option.some.injEq] at ht
        subst ht
        exact ⟨e, h', by simp only [copyArtifacts, osutilCopyFile, h']; rfl⟩
      · simp [copyArtifacts, osutilCopyFile, h']
      · simp [copyArtifacts, osutilCopyFile, h']
      · simp [copyArtifacts, osutilCopyFile, h', copyCall]

/-- C7, as stated, fails: in a source tree where the debug binary is missing,
`build` fails at the second copy, and the kernel binary copied first is in the
output directory although it was not there before the call. -/
theorem copy_step_not_all_or_nothing :
    ¬ AllOrNothing (fun _ _ => false) "out" (compileDir "k" "amd64") "u" fsNoGdb
      (build (fsEnv (fun _ _ => false)) "amd64" "qemu" "k" "out" "gcc" "u" "" "" ""
        ⟨fsNoGdb, []⟩) := by
  have herr : (build (fsEnv (fun _ _ => false)) "amd64" "qemu" "k" "out" "gcc" "u" "" "" ""
      ⟨fsNoGdb, []⟩).1.isSome = true := by decide
  have hnew : (build (fsEnv (fun _ _ => false)) "amd64" "qemu" "k" "out" "gcc" "u" "" "" ""
      ⟨fsNoGdb, []⟩).2.st "out/netbsd" = some "ELF" := by decide
  have hold : fsNoGdb "out/netbsd" = none := by decide
  rintro (⟨hnone, _⟩ | ⟨_, hsame⟩)
  · rw [hnone] at herr
    exact Bool.false_ne_true herr
  · have h := hsame (compileDir "k" "amd64", "netbsd") (by simp [artifacts])
    have hj : (fsEnv (fun _ _ => false)).join "out" "netbsd" = "out/netbsd" := by decide
    rw [hj, hnew, hold] at h
    exact Option.noConfusion h

/-- C7, amended: on a filesystem with atomic copies, the copy step of `build`
runs through the artifact list up to a position `i`: starting from the
filesystem before the step, the copies of the positions before `i` succeed one
after the other (`st j` is the filesystem before copy `j`), and either `i = 4`
and the step returns no error, or the copy of position `i` fails, leaving the
filesystem as it was, and the step returns the error naming that pair.  The
step returns no error exactly when `i = 4`.  The filesystem after the step is
the one reached after those `i` copies: the artifacts of the positions before
`i` exist in the output directory under their own names (all four on success,
the ones already copied on failure, nothing is rolled back), and the copies
attempted are exactly those of the positions `0..i`. -/
theorem copy_step_outcome (deny : String → String → Bool) (outputDir compileDir
    userspaceDir : String) (w : World fsSig) :
    ∃ (i : Nat) (st : Nat → FS), i ≤ 4 ∧ st 0 = w.st ∧
      (∀ j t, j < i → (artifacts compileDir userspaceDir)[j]? = some t →
        (fsEnv deny).copyFile ((fsEnv deny).join t.1 t.2) ((fsEnv deny).join outputDir t.2)
          (st j) = (none, st (j + 1))) ∧
      (∀ t, (artifacts compileDir userspaceDir)[i]? = some t → ∃ e,
        (fsEnv deny).copyFile ((fsEnv deny).join t.1 t.2) ((fsEnv deny).join outputDir t.2)
          (st i) = (some e, st i) ∧
        (copyArtifacts (fsEnv deny) outputDir (artifacts compileDir userspaceDir) w).1 =
          some (.errorf ("failed to copy " ++ (fsEnv deny).join t.1 t.2 ++ " -> " ++
            (fsEnv deny).join outputDir t.2 ++ ": " ++ e))) ∧
      ((copyArtifacts (fsEnv deny) outputDir (artifacts compileDir userspaceDir) w).1 = none ↔
        i = 4) ∧
      (copyArtifacts (fsEnv deny) outputDir (artifacts compileDir userspaceDir) w).2.st = st i ∧
      (∀ s ∈ (artifacts compileDir userspaceDir).take i,
        ((copyArtifacts (fsEnv deny) outputDir (artifacts compileDir userspaceDir) w).2.st
          ((fsEnv deny).join outputDir s.2)).isSome) ∧
      observed w (copyArtifacts (fsEnv deny) outputDir (artifacts compileDir userspaceDir) w).2 =
        ((artifacts compileDir userspaceDir).take (i + 1)).map
          (copyCall (fsEnv deny) outputDir) := by
  obtain ⟨i, st, hi, hst0, hok, hfail, hiff, hfin, hex, htr⟩ :=
    copyArtifacts_outcome deny outputDir (artifacts compileDir userspaceDir) w
  exact ⟨i, st, hi, hst0, hok, hfail, hiff, hfin, hex, observed_of_trace _ _ _ htr⟩

end NetBSD
